import Mathlib

/-!
Verification development for the UART Command Center firmware.

The definitions below are a shallow embedding of the C sources:
module-level mutable state becomes explicit state records, each C function
becomes a Lean function from the state it reads/mutates to the updated
state (paired with its return code and the strings it writes to the UART
output sink), and the interrupt-driven receive path becomes a per-byte
step function folded over the incoming byte sequence.
-/

namespace UARTCC

/-! ## Lights driver (src/drivers/lights_control.c)

The driver keeps two module-level variables:
`static bool on_state = false;` and `static int brightness = 50;`.
We bundle them into a record and thread it explicitly. -/

structure LightState where
  on_state : Bool
  brightness : Int
  deriving Repr, DecidableEq

/-- Initial values of the driver's module-level variables at startup. -/
def initLights : LightState := { on_state := false, brightness := 50 }

/-- `lights_control_turn_on`: sets `on_state = true`, returns 0. -/
def lights_control_turn_on (s : LightState) : Int × LightState :=
  (0, { s with on_state := true })

/-- `lights_control_turn_off`: sets `on_state = false`, returns 0. -/
def lights_control_turn_off (s : LightState) : Int × LightState :=
  (0, { s with on_state := false })

/-- `lights_control_increase_brightness`: if `brightness <= 90` add 10,
else set to 100; returns 0. -/
def lights_control_increase_brightness (s : LightState) : Int × LightState :=
  if s.brightness ≤ 90 then
    (0, { s with brightness := s.brightness + 10 })
  else
    (0, { s with brightness := 100 })

/-- `lights_control_decrease_brightness`: if `brightness >= 10` subtract 10,
else set to 0; returns 0. -/
def lights_control_decrease_brightness (s : LightState) : Int × LightState :=
  if s.brightness ≥ 10 then
    (0, { s with brightness := s.brightness - 10 })
  else
    (0, { s with brightness := 0 })

/-- `lights_control_get_state` (non-null pointer path): writes the current
`on_state` and `brightness` through the out-pointers and returns 0. -/
def lights_control_get_state (s : LightState) : Int × Bool × Int :=
  (0, s.on_state, s.brightness)

/-! ## Lights command layer (src/commands/command_lights.c)

`command_lights_execute_action` switches on `action_id`, calls the driver,
and writes a confirmation or failure string via `uart_handler_write_string`.
We return the updated light state together with the list of strings written
to the output sink, in order. -/

/-- `command_lights_execute_action`: the `switch (action_id)` body. -/
def command_lights_execute_action (action_id : Int) (s : LightState) :
    LightState × List String :=
  if action_id = 0 then
    let r := lights_control_turn_on s
    if r.1 = 0 then (r.2, ["Lights turned ON.\r\n"])
    else (r.2, ["Failed to turn lights ON.\r\n"])
  else if action_id = 1 then
    let r := lights_control_turn_off s
    if r.1 = 0 then (r.2, ["Lights turned OFF.\r\n"])
    else (r.2, ["Failed to turn lights OFF.\r\n"])
  else if action_id = 2 then
    let r := lights_control_increase_brightness s
    if r.1 = 0 then (r.2, ["Brightness increased.\r\n"])
    else (r.2, ["Failed to increase brightness.\r\n"])
  else if action_id = 3 then
    let r := lights_control_decrease_brightness s
    if r.1 = 0 then (r.2, ["Brightness decreased.\r\n"])
    else (r.2, ["Failed to decrease brightness.\r\n"])
  else
    (s, ["Invalid lights command.\r\n"])

/-- `command_lights_execute`: delegates to `command_lights_execute_action`. -/
def command_lights_execute (action_id : Int) (s : LightState) :
    LightState × List String :=
  command_lights_execute_action action_id s

/-! ## Command dispatcher (src/commands/commands_core.c)

`commands_core_execute` routes `(category, action_id)`; category 1 is
lights, categories 2–4 print a not-implemented message, anything else
prints an invalid-category message. Only the lights category touches the
light state. -/

/-- `commands_core_execute`: the `switch (category)` body. -/
def commands_core_execute (category action_id : Int) (s : LightState) :
    LightState × List String :=
  if category = 1 then
    command_lights_execute action_id s
  else if category = 2 then
    (s, ["Sensor commands not implemented yet.\r\n"])
  else if category = 3 then
    (s, ["System configuration commands not implemented yet.\r\n"])
  else if category = 4 then
    (s, ["Diagnostics commands not implemented yet.\r\n"])
  else
    (s, ["Invalid command category.\r\n"])

/-- `menu_actions_execute` (src/menu/menu_actions.c): forwards to
`commands_core_execute`. -/
def menu_actions_execute (category action_id : Int) (s : LightState) :
    LightState × List String :=
  commands_core_execute category action_id s

/-- Fold a list of lights `action_id`s through `command_lights_execute`,
keeping only the light state (the dispatcher sequence of claim C4). -/
def applyLightsActions (acts : List Int) (s : LightState) : LightState :=
  acts.foldl (fun st a => (command_lights_execute a st).1) s

/-- The brightness range invariant stated by the spec. -/
def brightnessInRange (s : LightState) : Prop :=
  0 ≤ s.brightness ∧ s.brightness ≤ 100

instance (s : LightState) : Decidable (brightnessInRange s) := by
  unfold brightnessInRange; infer_instance

/-! ## Line queue (the `uart_msgq` kernel message queue)

`K_MSGQ_DEFINE(uart_msgq, UART_MSG_SIZE, UART_MSGQ_LEN, 4)` declares a
bounded FIFO of `UART_MSGQ_LEN` slots of `UART_MSG_SIZE` bytes.  The queue
implementation itself is the kernel's, outside this repository's sources.

Modelled from the spec: §4.2 "Line Queue" — `put(line) -> {ok | full}`
non-blocking; `get -> {ok(line) | empty}`; capacity C and slot size N are
fixed constants; FIFO ordering strictly preserved; a put on a full queue
fails and drops the offered line.  We model the queue contents as the list
of enqueued lines, oldest first; a line is its data bytes (each a `Nat`
below 256), the implicit NUL terminator excluded. -/

/-- `UART_MSG_SIZE` (slot size in bytes, NUL included). -/
def UART_MSG_SIZE : Nat := 64

/-- `UART_MSGQ_LEN` (queue capacity in lines). -/
def UART_MSGQ_LEN : Nat := 10

/-- Non-blocking `k_msgq_put(&uart_msgq, line, K_NO_WAIT)`: appends at the
tail when the queue has a free slot and returns `true`; on a full queue
returns `false` and leaves the queue unchanged. -/
def msgq_put (q : List (List Nat)) (line : List Nat) : Bool × List (List Nat) :=
  if q.length < UART_MSGQ_LEN then (true, q ++ [line]) else (false, q)

/-- Non-blocking `k_msgq_get(&uart_msgq, buf, K_NO_WAIT)`: removes and
returns the oldest line, or `none` when the queue is empty. -/
def msgq_get (q : List (List Nat)) : Option (List Nat × List (List Nat)) :=
  match q with
  | [] => none
  | x :: xs => some (x, xs)

/-- A producer/consumer operation on the line queue. -/
inductive QOp where
  | put (line : List Nat)
  | get
  deriving Repr, DecidableEq

/-- Apply one queue operation (failed puts and empty gets leave the queue
unchanged). -/
def applyQOp (q : List (List Nat)) : QOp → List (List Nat)
  | QOp.put l => (msgq_put q l).2
  | QOp.get =>
      match msgq_get q with
      | none => q
      | some r => r.2

/-- Apply a sequence of queue operations starting from queue `q`. -/
def applyQOps (q : List (List Nat)) (ops : List QOp) : List (List Nat) :=
  ops.foldl applyQOp q

/-- Repeatedly `get` (at most `fuel` times) until the queue reports empty,
returning the dequeued lines in dequeue order. -/
def drainAux : Nat → List (List Nat) → List (List Nat)
  | 0, _ => []
  | fuel + 1, q =>
      match msgq_get q with
      | none => []
      | some r => r.1 :: drainAux fuel r.2

/-- Dequeue every line of `q` through `msgq_get`, in dequeue order. -/
def drainQ (q : List (List Nat)) : List (List Nat) :=
  drainAux q.length q

/-! ## UART receiver ISR (src/uart_handler.c)

`uart_irq_handler` owns the module-level accumulation buffer
`static char rx_buf[UART_MSG_SIZE]` and cursor `static size_t rx_buf_pos`.
We represent the meaningful prefix `rx_buf[0..rx_buf_pos)` as a list (so
`rx_buf_pos = rx_buf.length`) together with the queue the handler puts
completed lines into.  The per-byte body of the FIFO-drain loop is: -/

structure UartState where
  rx_buf : List Nat
  queue : List (List Nat)
  deriving Repr, DecidableEq

/-- Receiver state at startup: empty accumulation buffer, empty queue. -/
def initUart : UartState := { rx_buf := [], queue := [] }

/-- One iteration of the `while (uart_fifo_read(...) == 1)` loop body of
`uart_irq_handler`, processing byte `c`:
if `c` is `'\n'` (10) or `'\r'` (13) and `rx_buf_pos > 0`, NUL-terminate,
`k_msgq_put` the line (dropping it when the queue is full) and reset the
cursor; otherwise, if `rx_buf_pos < UART_MSG_SIZE - 1`, append `c`;
otherwise drop the byte. -/
def uart_rx_byte (s : UartState) (c : Nat) : UartState :=
  if (c = 10 ∨ c = 13) ∧ s.rx_buf.length > 0 then
    { rx_buf := [], queue := (msgq_put s.queue s.rx_buf).2 }
  else if s.rx_buf.length < UART_MSG_SIZE - 1 then
    { s with rx_buf := s.rx_buf ++ [c] }
  else
    s

/-- Feed a byte sequence to the receiver one byte at a time. -/
def uart_rx_bytes (s : UartState) (cs : List Nat) : UartState :=
  cs.foldl uart_rx_byte s

/-! ## Menu state machine (src/menu/menu_core.c)

`menu_core_run` is the main-menu loop; selecting `"1"` calls the nested
blocking loop `menu_core_run_lights_menu`, and returning from it resumes
the main loop.  We embed the two nested loops as one step function on an
explicit menu level: `LIGHTS_SUB` is "control is inside the lights
sub-loop".  A step consumes one dequeued line and performs the body of the
corresponding loop iteration (`menu_core_handle_input` resp.
`menu_core_handle_lights_input`); the strings the handlers write through
`uart_handler_write_string` are returned in order.  The per-iteration menu
redisplay (`menu_display_show_main_menu` / the lights menu text) is
display-only and independent of the input, and is not tracked here. -/

inductive MenuState where
  | MAIN
  | LIGHTS_SUB
  | TERMINATED
  deriving Repr, DecidableEq

/-- `menu_display_error` (menu_display.c, non-null path): writes
`"Error: "`, the message, then `"\r\n"`. -/
def menu_display_error (msg : String) : List String :=
  ["Error: ", msg, "\r\n"]

/-- `menu_core_handle_lights_input`: translate a lights sub-menu line into
a `(LIGHTS, action)` dispatch, `"0"` requests return to the main menu,
anything else displays an error.  Returns the C function's `bool`
(continue the sub-loop?), the updated light state, and the output. -/
def menu_core_handle_lights_input (input : String) (s : LightState) :
    Bool × LightState × List String :=
  if input = "1" then
    let r := menu_actions_execute 1 0 s
    (true, r.1, "Turning lights ON...\r\n" :: r.2)
  else if input = "2" then
    let r := menu_actions_execute 1 1 s
    (true, r.1, "Turning lights OFF...\r\n" :: r.2)
  else if input = "3" then
    let r := menu_actions_execute 1 2 s
    (true, r.1, "Increasing brightness...\r\n" :: r.2)
  else if input = "4" then
    let r := menu_actions_execute 1 3 s
    (true, r.1, "Decreasing brightness...\r\n" :: r.2)
  else if input = "0" then
    (false, s, ["Returning to main menu...\r\n"])
  else
    (true, s, menu_display_error "Invalid choice. Please try again.")

/-- One loop iteration of the menu system on a dequeued line.  In `MAIN`
this is the body of `menu_core_handle_input` (where the `"1"` branch enters
the lights sub-loop and the `"0"` branch ends `menu_core_run`); in
`LIGHTS_SUB` it is an iteration of `menu_core_run_lights_menu`, whose
`handle` result `false` returns control to the main loop. -/
def menu_step (ms : MenuState) (input : String) (s : LightState) :
    MenuState × LightState × List String :=
  match ms with
  | MenuState.TERMINATED => (MenuState.TERMINATED, s, [])
  | MenuState.MAIN =>
      if input = "1" then
        (MenuState.LIGHTS_SUB, s, ["Lights control selected.\r\n"])
      else if input = "2" then
        let r := menu_actions_execute 2 0 s
        (MenuState.MAIN, r.1, "Sensor readings selected.\r\n" :: r.2)
      else if input = "3" then
        let r := menu_actions_execute 3 0 s
        (MenuState.MAIN, r.1, "System configuration selected.\r\n" :: r.2)
      else if input = "4" then
        let r := menu_actions_execute 4 0 s
        (MenuState.MAIN, r.1, "Diagnostics and logs selected.\r\n" :: r.2)
      else if input = "0" then
        (MenuState.TERMINATED, s, ["Exiting menu.\r\n"])
      else
        (MenuState.MAIN, s, menu_display_error "Invalid choice. Please try again.")
  | MenuState.LIGHTS_SUB =>
      let r := menu_core_handle_lights_input input s
      (if r.1 then MenuState.LIGHTS_SUB else MenuState.MAIN, r.2.1, r.2.2)

/-- Run the menu loops over a sequence of dequeued input lines. -/
def menu_run (st : MenuState × LightState) (inputs : List String) :
    MenuState × LightState :=
  inputs.foldl (fun p inp => ((menu_step p.1 inp p.2).1, (menu_step p.1 inp p.2).2.1)) st

/-! ## Consumer dequeue buffers (src/menu/menu_core.c)

`menu_core_run` dequeues into a local `char input_buffer[menu_input_max_len]`
with `static const int menu_input_max_len = 32`, and
`menu_core_run_lights_menu` dequeues into the file-scope
`static char input_buffer[32]`, while every `uart_msgq` slot holds
`UART_MSG_SIZE` = 64 bytes. -/

/-- `menu_input_max_len` (size of `menu_core_run`'s local dequeue buffer). -/
def menu_input_max_len : Nat := 32

/-- Size of the file-scope `input_buffer[32]` used by the lights sub-loop. -/
def sub_menu_input_buffer_size : Nat := 32

/-- Slot bytes occupied by a stored line: its data bytes plus the NUL
terminator the ISR writes at `rx_buf[rx_buf_pos]`. -/
def slotBytesOccupied (line : List Nat) : Nat := line.length + 1

/-- Copying a stored line's occupied bytes out of its slot into a
destination buffer of `cap` bytes stays in bounds iff they fit. -/
def inBoundsCopy (line : List Nat) (cap : Nat) : Prop :=
  slotBytesOccupied line ≤ cap

instance (line : List Nat) (cap : Nat) : Decidable (inBoundsCopy line cap) := by
  unfold inBoundsCopy; infer_instance

/-! ## Theorems -/

/-- Each lights dispatch, valid or not, keeps brightness within `[0, 100]`. -/
theorem lights_step_preserves_range (a : Int) (s : LightState)
    (h : brightnessInRange s) :
    brightnessInRange (command_lights_execute a s).1 := by
  obtain ⟨h0, h1⟩ := h
  unfold brightnessInRange command_lights_execute command_lights_execute_action
    lights_control_turn_on lights_control_turn_off
    lights_control_increase_brightness lights_control_decrease_brightness
  split_ifs <;> simp_all <;> omega

/-- Folding any lights action sequence preserves the brightness range. -/
theorem applyLightsActions_preserves_range (acts : List Int) (s : LightState)
    (h : brightnessInRange s) :
    brightnessInRange (applyLightsActions acts s) := by
  induction acts generalizing s with
  | nil => simpa [applyLightsActions] using h
  | cons a rest ih =>
      have := lights_step_preserves_range a s h
      simpa [applyLightsActions, List.foldl_cons] using
        ih ((command_lights_execute a s).1) this

/-- C10: at startup, before any dispatcher operation runs, the light state
is `on = false` and `brightness = 50` (neither 0 nor 100), and the first
`get_state` query succeeds with exactly that value. -/
theorem C10_initial_light_state :
    initLights.on_state = false ∧ initLights.brightness = 50 ∧
    lights_control_get_state initLights = (0, false, 50) ∧
    initLights.brightness ≠ 0 ∧ initLights.brightness ≠ 100 := by
  refine ⟨rfl, rfl, rfl, ?_, ?_⟩ <;> decide

set_option maxRecDepth 8000 in
/-- C4: every sequence of dispatcher lights operations (actions 0–3 and
invalid ids alike) started from the initial light state keeps brightness in
`[0, 100]`; twenty `(LIGHTS, 2)` dispatches from brightness 50 reach
exactly 100 without ever exceeding it, and twenty `(LIGHTS, 3)` dispatches
from 50 reach and stay at 0 without going below. -/
theorem C4_brightness_always_in_range :
    (∀ acts : List Int, 0 ≤ (applyLightsActions acts initLights).brightness ∧
      (applyLightsActions acts initLights).brightness ≤ 100) ∧
    (∀ n : Nat, (applyLightsActions (List.replicate n 2) initLights).brightness ≤ 100) ∧
    (applyLightsActions (List.replicate 20 2) initLights).brightness = 100 ∧
    (∀ n : Nat, 0 ≤ (applyLightsActions (List.replicate n 3) initLights).brightness) ∧
    (applyLightsActions (List.replicate 20 3) initLights).brightness = 0 := by
  have hinv : ∀ acts : List Int, brightnessInRange (applyLightsActions acts initLights) :=
    fun acts => applyLightsActions_preserves_range acts initLights (by decide)
  exact ⟨fun acts => hinv acts, fun n => (hinv (List.replicate n 2)).2, rfl,
    fun n => (hinv (List.replicate n 3)).1, rfl⟩

/-- C5: for every starting state, `(LIGHTS, 2)` succeeds and sets
brightness to `b + 10` when `b ≤ 90` and to exactly 100 otherwise, and
`(LIGHTS, 3)` succeeds and sets it to `b - 10` when `b ≥ 10` and to
exactly 0 otherwise; neither dispatch changes the `on` field, and both
driver calls return 0. -/
theorem C5_brightness_step_exact (s : LightState) :
    command_lights_execute 2 s =
      ({ s with brightness := if s.brightness ≤ 90 then s.brightness + 10 else 100 },
        ["Brightness increased.\r\n"]) ∧
    command_lights_execute 3 s =
      ({ s with brightness := if s.brightness ≥ 10 then s.brightness - 10 else 0 },
        ["Brightness decreased.\r\n"]) ∧
    (command_lights_execute 2 s).1.on_state = s.on_state ∧
    (command_lights_execute 3 s).1.on_state = s.on_state ∧
    (lights_control_increase_brightness s).1 = 0 ∧
    (lights_control_decrease_brightness s).1 = 0 := by
  by_cases h2 : s.brightness ≤ 90 <;> by_cases h3 : s.brightness ≥ 10 <;>
    simp [command_lights_execute, command_lights_execute_action,
      lights_control_increase_brightness, lights_control_decrease_brightness, h2, h3]

/-- C6: `(LIGHTS, 1)` always succeeds with the success message, sets `on`
to `false`, leaves brightness unchanged, and is idempotent on the state;
after `dispatch(LIGHTS,0); dispatch(LIGHTS,1); dispatch(LIGHTS,1)` the
light is off, and the repeated OFF produced the success message again. -/
theorem C6_turn_off_idempotent (s : LightState) :
    command_lights_execute 1 s =
      ({ s with on_state := false }, ["Lights turned OFF.\r\n"]) ∧
    (command_lights_execute 1 s).1.brightness = s.brightness ∧
    command_lights_execute 1 (command_lights_execute 1 s).1 =
      ((command_lights_execute 1 s).1, ["Lights turned OFF.\r\n"]) ∧
    (applyLightsActions [0, 1, 1] s).on_state = false ∧
    command_lights_execute 1 (applyLightsActions [0, 1] s) =
      (applyLightsActions [0, 1] s, ["Lights turned OFF.\r\n"]) := by
  simp [applyLightsActions, command_lights_execute, command_lights_execute_action,
    lights_control_turn_on, lights_control_turn_off]

/-- C7: an invalid lights `action_id` (outside `{0,1,2,3}`) yields the
invalid-action message and leaves the light state untouched, and an
invalid category (outside `{1,2,3,4}`) yields the invalid-category message
and leaves the light state untouched; both calls return normally. -/
theorem C7_invalid_inputs_leave_state (s : LightState) (a c : Int)
    (ha0 : a ≠ 0) (ha1 : a ≠ 1) (ha2 : a ≠ 2) (ha3 : a ≠ 3)
    (hc1 : c ≠ 1) (hc2 : c ≠ 2) (hc3 : c ≠ 3) (hc4 : c ≠ 4) :
    command_lights_execute a s = (s, ["Invalid lights command.\r\n"]) ∧
    commands_core_execute c a s = (s, ["Invalid command category.\r\n"]) := by
  constructor
  · simp [command_lights_execute, command_lights_execute_action, ha0, ha1, ha2, ha3]
  · simp [commands_core_execute, hc1, hc2, hc3, hc4]

/-- Witness for C7 at the spec's own examples: `dispatch(LIGHTS, 99)` and
`dispatch(7, 0)`. -/
theorem C7_invalid_inputs_leave_state_witness :
    command_lights_execute 99 initLights =
      (initLights, ["Invalid lights command.\r\n"]) ∧
    commands_core_execute 7 99 initLights =
      (initLights, ["Invalid command category.\r\n"]) :=
  C7_invalid_inputs_leave_state initLights 99 7 (by decide) (by decide)
    (by decide) (by decide) (by decide) (by decide) (by decide) (by decide)

/-- C3: the menu state machine realises the spec's transition table — in
`MAIN`, `"1"` enters `LIGHTS_SUB`, `"2"`/`"3"`/`"4"` dispatch category
2/3/4 with action 0 and stay in `MAIN`, `"0"` terminates, and anything
else errors and stays; in `LIGHTS_SUB`, `"1"`–`"4"` dispatch
`(LIGHTS, 0..3)` and remain in `LIGHTS_SUB`, `"0"` returns to `MAIN`, and
anything else errors and stays.  The sequence `"1"`, `"1"`, `"0"`, `"0"`
from `MAIN` enters the sub-menu, turns the light on while staying in the
sub-menu, returns to `MAIN`, then terminates. -/
theorem C3_menu_transition_table :
    (∀ s : LightState, menu_step MenuState.MAIN "1" s =
      (MenuState.LIGHTS_SUB, s, ["Lights control selected.\r\n"])) ∧
    (∀ s : LightState, menu_step MenuState.MAIN "2" s =
      (MenuState.MAIN, (menu_actions_execute 2 0 s).1,
        "Sensor readings selected.\r\n" :: (menu_actions_execute 2 0 s).2)) ∧
    (∀ s : LightState, menu_step MenuState.MAIN "3" s =
      (MenuState.MAIN, (menu_actions_execute 3 0 s).1,
        "System configuration selected.\r\n" :: (menu_actions_execute 3 0 s).2)) ∧
    (∀ s : LightState, menu_step MenuState.MAIN "4" s =
      (MenuState.MAIN, (menu_actions_execute 4 0 s).1,
        "Diagnostics and logs selected.\r\n" :: (menu_actions_execute 4 0 s).2)) ∧
    (∀ s : LightState, menu_step MenuState.MAIN "0" s =
      (MenuState.TERMINATED, s, ["Exiting menu.\r\n"])) ∧
    (∀ (s : LightState) (inp : String), inp ≠ "0" → inp ≠ "1" → inp ≠ "2" →
      inp ≠ "3" → inp ≠ "4" →
      menu_step MenuState.MAIN inp s =
        (MenuState.MAIN, s, menu_display_error "Invalid choice. Please try again.")) ∧
    (∀ s : LightState, menu_step MenuState.LIGHTS_SUB "1" s =
      (MenuState.LIGHTS_SUB, (menu_actions_execute 1 0 s).1,
        "Turning lights ON...\r\n" :: (menu_actions_execute 1 0 s).2)) ∧
    (∀ s : LightState, menu_step MenuState.LIGHTS_SUB "2" s =
      (MenuState.LIGHTS_SUB, (menu_actions_execute 1 1 s).1,
        "Turning lights OFF...\r\n" :: (menu_actions_execute 1 1 s).2)) ∧
    (∀ s : LightState, menu_step MenuState.LIGHTS_SUB "3" s =
      (MenuState.LIGHTS_SUB, (menu_actions_execute 1 2 s).1,
        "Increasing brightness...\r\n" :: (menu_actions_execute 1 2 s).2)) ∧
    (∀ s : LightState, menu_step MenuState.LIGHTS_SUB "4" s =
      (MenuState.LIGHTS_SUB, (menu_actions_execute 1 3 s).1,
        "Decreasing brightness...\r\n" :: (menu_actions_execute 1 3 s).2)) ∧
    (∀ s : LightState, menu_step MenuState.LIGHTS_SUB "0" s =
      (MenuState.MAIN, s, ["Returning to main menu...\r\n"])) ∧
    (∀ (s : LightState) (inp : String), inp ≠ "0" → inp ≠ "1" → inp ≠ "2" →
      inp ≠ "3" → inp ≠ "4" →
      menu_step MenuState.LIGHTS_SUB inp s =
        (MenuState.LIGHTS_SUB, s, menu_display_error "Invalid choice. Please try again.")) ∧
    menu_step MenuState.MAIN "1" initLights =
      (MenuState.LIGHTS_SUB, initLights, ["Lights control selected.\r\n"]) ∧
    menu_step MenuState.LIGHTS_SUB "1" initLights =
      (MenuState.LIGHTS_SUB, { on_state := true, brightness := 50 },
        ["Turning lights ON...\r\n", "Lights turned ON.\r\n"]) ∧
    menu_step MenuState.LIGHTS_SUB "0" { on_state := true, brightness := 50 } =
      (MenuState.MAIN, { on_state := true, brightness := 50 },
        ["Returning to main menu...\r\n"]) ∧
    menu_step MenuState.MAIN "0" { on_state := true, brightness := 50 } =
      (MenuState.TERMINATED, { on_state := true, brightness := 50 },
        ["Exiting menu.\r\n"]) ∧
    menu_run (MenuState.MAIN, initLights) ["1", "1", "0", "0"] =
      (MenuState.TERMINATED, { on_state := true, brightness := 50 }) := by
  refine ⟨fun s => rfl, fun s => rfl, fun s => rfl, fun s => rfl, fun s => rfl,
    ?_, fun s => rfl, fun s => rfl, fun s => rfl, fun s => rfl, fun s => rfl,
    ?_, rfl, rfl, rfl, rfl, rfl⟩
  · intro s inp h0 h1 h2 h3 h4
    simp [menu_step, menu_display_error, h0, h1, h2, h3, h4]
  · intro s inp h0 h1 h2 h3 h4
    simp [menu_step, menu_core_handle_lights_input, menu_display_error,
      h0, h1, h2, h3, h4]

/-- Witness for C3: an unrecognised token (`"7"` at the main menu, `"x"`
in the lights sub-menu) displays the error and leaves the level and the
light state unchanged. -/
theorem C3_menu_transition_table_witness :
    menu_step MenuState.MAIN "7" initLights =
      (MenuState.MAIN, initLights,
        menu_display_error "Invalid choice. Please try again.") ∧
    menu_step MenuState.LIGHTS_SUB "x" initLights =
      (MenuState.LIGHTS_SUB, initLights,
        menu_display_error "Invalid choice. Please try again.") := by
  obtain ⟨-, -, -, -, -, hm, -, -, -, -, -, hl, -⟩ := C3_menu_transition_table
  exact ⟨hm initLights "7" (by decide) (by decide) (by decide) (by decide) (by decide),
    hl initLights "x" (by decide) (by decide) (by decide) (by decide) (by decide)⟩

/-- C1: divergence witness.  Feed the bytes `'\n'`, `'a'`, `'\n'` (10, 97,
10) to the receiver from startup.  The only maximal non-terminator run
with at least one data byte is `"a"`, so exactly one line equal to
`[97]` should be enqueued — but the code enqueues `[10, 97]`: the leading
terminator arrived while `rx_buf_pos = 0`, fell through to the append
branch (`0 < UART_MSG_SIZE - 1`), and was stored as a data byte. -/
theorem C1_enqueued_line_differs_from_run :
    (uart_rx_bytes initUart [10, 97, 10]).queue = [[10, 97]] ∧
    ([[10, 97]] : List (List Nat)) ≠ [[97]] := by
  decide

/-- C2: divergence witness.  A terminator byte processed while the cursor
is 0 is not ignored: it is appended to the accumulation buffer (cursor
becomes 1), and a second consecutive terminator then enqueues the
one-byte line `"\n"` even though no data byte ever arrived. -/
theorem C2_blank_terminator_not_ignored :
    uart_rx_byte initUart 10 = { rx_buf := [10], queue := [] } ∧
    (uart_rx_bytes initUart [10, 10]).queue = [[10]] := by
  decide

/-- One queue operation keeps the occupancy within capacity. -/
theorem applyQOp_length_le (q : List (List Nat)) (op : QOp)
    (h : q.length ≤ UART_MSGQ_LEN) :
    (applyQOp q op).length ≤ UART_MSGQ_LEN := by
  cases op with
  | put l =>
      unfold applyQOp msgq_put
      split_ifs with hl
      · simpa using hl
      · simpa using h
  | get =>
      unfold applyQOp msgq_get
      cases q with
      | nil => exact h
      | cons x xs =>
          simp only [List.length_cons] at h ⊢
          omega

/-- Any operation sequence keeps the occupancy within capacity. -/
theorem applyQOps_length_le (ops : List QOp) (q : List (List Nat))
    (h : q.length ≤ UART_MSGQ_LEN) :
    (applyQOps q ops).length ≤ UART_MSGQ_LEN := by
  induction ops generalizing q with
  | nil => simpa [applyQOps] using h
  | cons op rest ih =>
      simpa [applyQOps, List.foldl_cons] using ih _ (applyQOp_length_le q op h)

/-- Draining with enough fuel returns exactly the stored lines in order. -/
theorem drainAux_self (n : Nat) (q : List (List Nat)) (h : q.length ≤ n) :
    drainAux n q = q := by
  induction n generalizing q with
  | zero =>
      cases q with
      | nil => rfl
      | cons x xs => simp at h
  | succ n ih =>
      cases q with
      | nil => rfl
      | cons x xs =>
          simp only [drainAux, msgq_get]
          exact congrArg (x :: ·) (ih xs (by simpa using Nat.lt_succ_iff.mp h))

/-- C8: the line queue never holds more than `UART_MSGQ_LEN` (10) lines
under any put/get sequence from empty; a put on a full queue fails
immediately, drops the offered line and leaves the stored entries
untouched; a put on a non-full queue appends at the tail; and draining
through `get` returns the entries in exactly the order they were put. -/
theorem C8_line_queue_bounded_fifo :
    (∀ ops : List QOp, (applyQOps [] ops).length ≤ UART_MSGQ_LEN) ∧
    (∀ (q : List (List Nat)) (l : List Nat), q.length = UART_MSGQ_LEN →
      msgq_put q l = (false, q)) ∧
    (∀ (q : List (List Nat)) (l : List Nat), q.length < UART_MSGQ_LEN →
      msgq_put q l = (true, q ++ [l])) ∧
    (∀ q : List (List Nat), drainQ q = q) := by
  refine ⟨fun ops => applyQOps_length_le ops [] (by simp), ?_, ?_, ?_⟩
  · intro q l h
    unfold msgq_put
    simp [h]
  · intro q l h
    unfold msgq_put
    simp [h]
  · intro q
    exact drainAux_self q.length q le_rfl

/-- Witness for C8: a put on a 10-entry queue fails and leaves it intact;
a put on the empty queue succeeds and stores the line. -/
theorem C8_line_queue_bounded_fifo_witness :
    msgq_put (List.replicate 10 [49]) [50] = (false, List.replicate 10 [49]) ∧
    msgq_put [] [49] = (true, [[49]]) := by
  obtain ⟨-, hfull, hok, -⟩ := C8_line_queue_bounded_fifo
  exact ⟨hfull (List.replicate 10 [49]) [50] (by decide),
    by simpa using hok [] [49] (by decide)⟩

set_option maxRecDepth 20000 in
/-- C9: the queue slot size is `UART_MSG_SIZE` = 64 bytes, but both
consumer dequeue buffers hold only 32 bytes; any stored line of 32 or
more data bytes occupies slot bytes 32..63 and its dequeue copy cannot
stay within either destination buffer — and the receiver really does
enqueue such lines (a 63-data-byte line reaches the queue intact). -/
theorem C9_dequeue_copy_overflow (line : List Nat) (h : 32 ≤ line.length) :
    UART_MSG_SIZE = 64 ∧ menu_input_max_len = 32 ∧
    sub_menu_input_buffer_size = 32 ∧
    ¬ inBoundsCopy line menu_input_max_len ∧
    ¬ inBoundsCopy line sub_menu_input_buffer_size ∧
    (uart_rx_bytes initUart (List.replicate 63 97 ++ [10])).queue =
      [List.replicate 63 97] ∧
    32 ≤ (List.replicate 63 97 : List Nat).length := by
  refine ⟨rfl, rfl, rfl, ?_, ?_, rfl, by simp⟩
  · unfold inBoundsCopy slotBytesOccupied menu_input_max_len
    omega
  · unfold inBoundsCopy slotBytesOccupied sub_menu_input_buffer_size
    omega

/-- Witness for C9: the 63-data-byte line the receiver enqueues does not
fit either 32-byte consumer buffer. -/
theorem C9_dequeue_copy_overflow_witness :
    ¬ inBoundsCopy (List.replicate 63 97) menu_input_max_len ∧
    ¬ inBoundsCopy (List.replicate 63 97) sub_menu_input_buffer_size := by
  obtain ⟨-, -, -, h1, h2, -⟩ :=
    C9_dequeue_copy_overflow (List.replicate 63 97) (by simp)
  exact ⟨h1, h2⟩

end UARTCC
